import Mathlib

/-!
L7N_EtherCAT, `user/main.c`: the cyclic task of the two-drive EtherCAT application.

A shallow embedding of `user/main.c`.

* Machine integers are `Int`/`Nat` with explicit wrap-around.  The program targets
  Linux on an LP64 machine: `long` and `time_t` are 64-bit signed, `int` and `int32_t`
  are 32-bit signed, `uint32_t` is `unsigned int`, `uint64_t` is 64-bit unsigned.
  Signed arithmetic that leaves its range is reduced to two's complement (`wrapS64`,
  `wrapS32`), which is what the machine does with the result bits.
* Calls into the EtherCAT master library and the operating system are events of a
  trace; what they return is read from an environment `Env`.
* The two `while (1)` loops are run with a cycle budget (`fuel`).
-/

namespace L7N

/-! ## Machine integers -/

/-- Two's-complement value of an integer kept in a 64-bit signed object (`long`, `time_t`). -/
def wrapS64 (x : Int) : Int := (x + 9223372036854775808) % 18446744073709551616 - 9223372036854775808

/-- Two's-complement value of an integer kept in a 32-bit signed object (`int`, `int32_t`). -/
def wrapS32 (x : Int) : Int := (x + 2147483648) % 4294967296 - 2147483648

/-- Value of an integer converted to `uint64_t`. -/
def toU64 (x : Int) : Int := x % 18446744073709551616

/-- Value of an integer converted to `uint32_t`. -/
def toU32 (x : Int) : Int := x % 4294967296

/-- Value of an integer converted to `uint8_t`. -/
def toU8 (x : Int) : Int := x % 256

/-- Subtraction of two `uint32_t` operands: the operands are not promoted (their rank is
that of `unsigned int`), the result is reduced modulo 2^32. -/
def subU32 (a b : Nat) : Nat := (a + 4294967296 - b % 4294967296) % 4294967296

/-! ## Constants of `main.c` -/

/-- `#define NSEC_PER_SEC (1000000000L)` -/
def NSEC_PER_SEC : Int := 1000000000

/-- `#define FREQUENCY 1000` -/
def FREQUENCY : Int := 1000

/-- `#define PERIOD_NS (NSEC_PER_SEC / FREQUENCY)` -/
def PERIOD_NS : Int := NSEC_PER_SEC / FREQUENCY

/-- `#define SHIFT0 (PERIOD_NS/2)` -/
def SHIFT0 : Int := PERIOD_NS / 2

/-! ## `struct timespec` -/

/-- `struct timespec`: `time_t tv_sec; long tv_nsec;`. -/
structure Timespec where
  tv_sec : Int
  tv_nsec : Int
  deriving DecidableEq, Repr

/-- The fields of a `struct timespec` object hold 64-bit signed values. -/
def Timespec.representable (t : Timespec) : Prop :=
  -9223372036854775808 ≤ t.tv_sec ∧ t.tv_sec < 9223372036854775808 ∧
  -9223372036854775808 ≤ t.tv_nsec ∧ t.tv_nsec < 9223372036854775808

instance (t : Timespec) : Decidable t.representable := by
  unfold Timespec.representable; exact inferInstance

/-- Nanoseconds denoted by a timespec, as a mathematical integer. -/
def Timespec.totalNs (t : Timespec) : Int := t.tv_sec * 1000000000 + t.tv_nsec

/-- `timespec_add` (main.c:72-88). Every `long`/`time_t` operation is wrapped. -/
def timespec_add (time1 time2 : Timespec) : Timespec :=
  if wrapS64 (time1.tv_nsec + time2.tv_nsec) ≥ NSEC_PER_SEC then
    { tv_sec := wrapS64 (wrapS64 (time1.tv_sec + time2.tv_sec) + 1)
      tv_nsec := wrapS64 (wrapS64 (time1.tv_nsec + time2.tv_nsec) - NSEC_PER_SEC) }
  else
    { tv_sec := wrapS64 (time1.tv_sec + time2.tv_sec)
      tv_nsec := wrapS64 (time1.tv_nsec + time2.tv_nsec) }

/-- `TIMESPEC2NS(T)`: `((uint64_t) (T).tv_sec * NSEC_PER_SEC + (T).tv_nsec)`. The cast binds
to `tv_sec`; the product and the sum are then computed in `uint64_t`. -/
def TIMESPEC2NS (T : Timespec) : Int :=
  toU64 (toU64 (toU64 T.tv_sec * toU64 NSEC_PER_SEC) + toU64 T.tv_nsec)

/-- `struct timespec cycleTime = {0, PERIOD_NS};` (main.c:299). -/
def cycleTime : Timespec := { tv_sec := 0, tv_nsec := PERIOD_NS }

/-! ## The process image and the `ecrt.h` access macros -/

/-- The domain's process data, `uint8_t* domain1_pd`: the bytes starting at the pointer.
`domain1_pd + offset` is the byte at index `offset`. -/
abbrev Image := List Nat

/-- Modelled from the spec: `EC_WRITE_U8` is a macro of `ecrt.h`, which is not part of this
repository's sources. It stores the value, converted to `uint8_t`, in the single byte at
the address. -/
def EC_WRITE_U8 (img : Image) (offset : Nat) (val : Int) : Image :=
  img.set offset (toU8 val).toNat

/-- Modelled from the spec: `EC_WRITE_S32` is a macro of `ecrt.h`, which is not part of this
repository's sources. It converts the value to 32 bits and stores it in the four bytes
at the address, least significant byte first (little-endian, the bus byte order). -/
def EC_WRITE_S32 (img : Image) (offset : Nat) (val : Int) : Image :=
  let u := (toU32 val).toNat
  (((img.set offset (u % 256)).set (offset + 1) (u / 256 % 256)).set
    (offset + 2) (u / 65536 % 256)).set (offset + 3) (u / 16777216 % 256)

/-- Modelled from the spec: `EC_READ_S32` is a macro of `ecrt.h`, which is not part of this
repository's sources. It decodes the four bytes at the address, least significant
byte first, as a signed 32-bit integer. A byte outside the image reads as 0. -/
def EC_READ_S32 (img : Image) (offset : Nat) : Int :=
  wrapS32 ((img.getD offset 0 : Int) + 256 * (img.getD (offset + 1) 0 : Int)
    + 65536 * (img.getD (offset + 2) 0 : Int) + 16777216 * (img.getD (offset + 3) 0 : Int))

/-- Modelled from the spec: `EC_READ_U16` is a macro of `ecrt.h`, which is not part of this
repository's sources. It decodes the two bytes at the address, least significant byte
first, as an unsigned 16-bit integer. `main.c` never calls it; it is the decoding of the
16-bit control-word entry `{0x6040, 0x00, 16}`. -/
def EC_READ_U16 (img : Image) (offset : Nat) : Nat :=
  (img.getD offset 0 + 256 * img.getD (offset + 1) 0) % 65536

/-- The eight `unsigned int offset_...` variables filled in by
`ecrt_domain_reg_pdo_entry_list` (main.c:233-248). -/
structure Offsets where
  controlWord0 : Nat
  targetPos0 : Nat
  statusWord0 : Nat
  actPos0 : Nat
  controlWord1 : Nat
  targetPos1 : Nat
  statusWord1 : Nat
  actPos1 : Nat
  deriving DecidableEq, Repr

/-! ## Events and environment -/

/-- The fixed diagnostic lines of `main.c`. -/
inductive Msg where
  | schedSetschedulerFailed
  | mlockallFailed
  | requestingMasterFailed
  | odWriteUnsuccessful
  | failedToGetSlaveConfiguration
  | failedToConfigureSlave0Pdos
  | failedToConfigureSlave1Pdos
  | pdoEntryRegistrationFailed
  | activatingMaster
  | allSlavesHaveReachedOp
  deriving DecidableEq, Repr

/-- Calls made by `main` into the operating system and the EtherCAT master library, and
its accesses to the process image, in program order. -/
inductive Event where
  | sched_get_priority_max
  | printf_priority (p : Int)
  | sched_setscheduler
  | perror (m : Msg)
  | printf (m : Msg)
  | mlockall
  | stack_prefault
  | signal
  | ecrt_request_master
  | ecrt_master_sdo_download (slavePos index subIndex objectValue : Nat)
  | ecrt_master_slave_config (position : Nat)
  | ecrt_slave_config_pdos (drive : Nat)
  | ecrt_master_create_domain
  | ecrt_domain_reg_pdo_entry_list
  | ecrt_slave_config_dc (drive : Nat) (assignActivate : Nat) (sync0Cycle sync0Shift : Int)
  | ecrt_master_activate
  | ecrt_domain_data
  | clock_gettime_wakeupTime (t : Timespec)
  | clock_gettime_time (t : Timespec)
  | clock_nanosleep (wakeupTime : Timespec)
  | ecrt_master_receive
  | ecrt_domain_process
  | ecrt_slave_config_state (drive : Nat)
  | ecrt_master_reference_clock_time
  | printf_u32 (d : Nat)
  | read_s32 (offset : Nat)
  | write_u8 (offset : Nat) (val : Int)
  | write_s32 (offset : Nat) (val : Int)
  | ecrt_domain_queue
  | ecrt_master_application_time (ns : Int)
  | ecrt_master_sync_reference_clock
  | ecrt_master_sync_slave_clocks
  | ecrt_master_send
  deriving DecidableEq, Repr

/-- What the operating system and the master library answer. Functions of a number are
indexed by the call count (`sdo_download`, `clock`) or by the cycle count (the rest). -/
structure Env where
  /-- Return value of `sched_get_priority_max`. -/
  priority : Int
  /-- Return value of `sched_setscheduler`. -/
  sched_setscheduler : Int
  /-- Return value of `mlockall`. -/
  mlockall : Int
  /-- Whether `ecrt_request_master` returned a non-null handle. -/
  master : Bool
  /-- Return value (an `int`) of the n-th `ecrt_master_sdo_download`. -/
  sdo_download : Nat → Int
  /-- Whether `ecrt_master_slave_config` returned non-null for position 0. -/
  drive0 : Bool
  /-- Whether `ecrt_master_slave_config` returned non-null for position 1. -/
  drive1 : Bool
  /-- Return value of `ecrt_slave_config_pdos(drive0, ...)`. -/
  config_pdos0 : Int
  /-- Return value of `ecrt_slave_config_pdos(drive1, ...)`. -/
  config_pdos1 : Int
  /-- Return value of `ecrt_domain_reg_pdo_entry_list`. -/
  reg_pdo_entry_list : Int
  /-- Offsets written back by `ecrt_domain_reg_pdo_entry_list`. -/
  offsets : Offsets
  /-- Return value of `ecrt_master_activate`. -/
  activate : Int
  /-- Result of `ecrt_domain_data`: `none` for a null pointer, else the image found there. -/
  domain_data : Option Image
  /-- Reading of the n-th `clock_gettime(CLOCK_MONOTONIC, ...)`. -/
  clock : Nat → Timespec
  /-- What `ecrt_master_receive` leaves in the process image in cycle k. -/
  exchange : Nat → Image → Image
  /-- The `operational` bits reported by `ecrt_slave_config_state` for drive 0 and drive 1
  in cycle k. -/
  operational : Nat → Bool × Bool
  /-- The 32-bit value stored by `ecrt_master_reference_clock_time` in cycle k. -/
  reference_clock_time : Nat → Nat
  /-- The indeterminate initial value of the uninitialised `uint32_t t_prev`. -/
  t_prev : Nat

/-- The variables of `main` that live across cycles. -/
structure State where
  /-- Number of loop iterations begun so far (both loops). -/
  cycle : Nat
  /-- Number of `clock_gettime` calls made so far. -/
  clockCalls : Nat
  wakeupTime : Timespec
  image : Image
  t_prev : Nat

/-! ## Drive initialisation -/

/-- `ODwrite` (main.c:50-57); `n` is the number of SDO downloads made before. The `int`
returned by the library is stored in a `uint8_t retVal`. -/
def ODwrite (env : Env) (n : Nat) (slavePos index subIndex objectValue : Nat) : List Event :=
  let retVal := toU8 (env.sdo_download n)
  Event.ecrt_master_sdo_download slavePos index subIndex objectValue ::
    (if retVal ≠ 0 then [Event.printf Msg.odWriteUnsuccessful] else [])

/-- `initDrive` (main.c:59-67). -/
def initDrive (env : Env) (n : Nat) (slavePos : Nat) : List Event :=
  ODwrite env n slavePos 0x6040 0x00 128 ++
  ODwrite env (n + 1) slavePos 0x6040 0x00 0xF ++
  ODwrite env (n + 2) slavePos 0x6060 0x00 0x8

/-! ## One cycle of each loop -/

/-- main.c:378, `targetPos0 = actPos0 + 5000;`: an `int` addition stored in an `int32_t`. -/
def targetPos0 (actPos0 : Int) : Int := wrapS32 (actPos0 + 5000)

/-- main.c:379, `targetPos1 = actPos1 - 5000;`: an `int` subtraction stored in an `int32_t`. -/
def targetPos1 (actPos1 : Int) : Int := wrapS32 (actPos1 - 5000)

/-- main.c:382-386, the four writes of a control cycle, in program order. -/
def writePDOs (img : Image) (o : Offsets) (tp0 tp1 : Int) : Image :=
  let img1 := EC_WRITE_U8 img o.controlWord0 0xF
  let img2 := EC_WRITE_S32 img1 o.targetPos0 tp0
  let img3 := EC_WRITE_U8 img2 o.controlWord1 0xF
  EC_WRITE_S32 img3 o.targetPos1 tp1

/-- Outcome of one loop iteration: what it did, the variables after it, and whether it
executed `break`. -/
structure CycleOut where
  events : List Event
  state : State
  leave : Bool

/-- One iteration of the bring-up loop (main.c:306-336), with `DC` defined. -/
def bringUpCycle (env : Env) (s : State) : CycleOut :=
  let wakeupTime := timespec_add s.wakeupTime cycleTime
  let image := env.exchange s.cycle s.image
  let slaveState := env.operational s.cycle
  let first := [Event.clock_nanosleep wakeupTime, Event.ecrt_master_receive,
    Event.ecrt_domain_process, Event.ecrt_slave_config_state 0, Event.ecrt_slave_config_state 1]
  if slaveState.1 && slaveState.2 then
    { events := first ++ [Event.printf Msg.allSlavesHaveReachedOp]
      state := { s with cycle := s.cycle + 1, wakeupTime := wakeupTime, image := image }
      leave := true }
  else
    let time := env.clock s.clockCalls
    { events := first ++ [Event.ecrt_domain_queue, Event.clock_gettime_time time,
        Event.ecrt_master_application_time (TIMESPEC2NS time),
        Event.ecrt_master_sync_reference_clock, Event.ecrt_master_sync_slave_clocks,
        Event.ecrt_master_send]
      state := { s with cycle := s.cycle + 1, clockCalls := s.clockCalls + 1,
                        wakeupTime := wakeupTime, image := image }
      leave := false }

/-- One iteration of the control loop (main.c:348-409), with `DC` and `MEASURE_TIMING`
defined. Line 369 reads `t_prev = t_curv;`: no `t_curv` is declared, the only variable it
can stand for is `t_cur`, and that is what the embedding assigns. -/
def controlCycle (env : Env) (s : State) : CycleOut :=
  let o := env.offsets
  let wakeupTime := timespec_add s.wakeupTime cycleTime
  let image := env.exchange s.cycle s.image
  let t_cur := env.reference_clock_time s.cycle % 4294967296
  let actPos0 := EC_READ_S32 image o.actPos0
  let actPos1 := EC_READ_S32 image o.actPos1
  let tp0 := targetPos0 actPos0
  let tp1 := targetPos1 actPos1
  let time := env.clock s.clockCalls
  { events := [Event.clock_nanosleep wakeupTime, Event.ecrt_master_receive,
      Event.ecrt_domain_process, Event.ecrt_master_reference_clock_time,
      Event.printf_u32 (subU32 t_cur s.t_prev),
      Event.read_s32 o.actPos0, Event.read_s32 o.actPos1,
      Event.write_u8 o.controlWord0 0xF, Event.write_s32 o.targetPos0 tp0,
      Event.write_u8 o.controlWord1 0xF, Event.write_s32 o.targetPos1 tp1,
      Event.ecrt_domain_queue, Event.clock_gettime_time time,
      Event.ecrt_master_application_time (TIMESPEC2NS time),
      Event.ecrt_master_sync_reference_clock, Event.ecrt_master_sync_slave_clocks,
      Event.ecrt_master_send]
    state := { cycle := s.cycle + 1, clockCalls := s.clockCalls + 1, wakeupTime := wakeupTime,
               image := writePDOs image o tp0 tp1, t_prev := t_cur }
    leave := false }

/-! ## The two loops -/

/-- Outcome of the bring-up loop under a cycle budget. `exitCycle` is the cycle number of
the iteration that executed `break` (`none`: the budget ended first); `fuelLeft` is what
remains of the budget. -/
structure BringUpOut where
  events : List Event
  state : State
  exitCycle : Option Nat
  fuelLeft : Nat

/-- The bring-up loop `while (1) { ... break; ... }` (main.c:306-336). -/
def bringUpLoop (env : Env) : Nat → State → BringUpOut
  | 0, s => { events := [], state := s, exitCycle := none, fuelLeft := 0 }
  | fuel + 1, s =>
    let c := bringUpCycle env s
    if c.leave then
      { events := c.events, state := c.state, exitCycle := some s.cycle, fuelLeft := fuel }
    else
      let r := bringUpLoop env fuel c.state
      { r with events := c.events ++ r.events }

/-- The control loop `while (1) { ... }` (main.c:348-409); it has no exit. -/
def controlLoop (env : Env) : Nat → State → List Event × State
  | 0, s => ([], s)
  | fuel + 1, s =>
    let c := controlCycle env s
    let r := controlLoop env fuel c.state
    (c.events ++ r.1, r.2)

/-! ## `main` -/

/-- A run of `main` under a cycle budget. `exit` is the value returned by `main`
(`none`: `main` was still inside one of its loops when the budget ended). -/
structure Run where
  config : List Event
  bringUp : List Event
  control : List Event
  exit : Option Int

/-- All events of a run, in program order. -/
def Run.events (r : Run) : List Event := r.config ++ r.bringUp ++ r.control

/-- main.c:299-409: the two loops, entered once the domain data pointer is known. -/
def cyclicTask (env : Env) (fuel : Nat) (config : List Event) (domain1_pd : Image) : Run :=
  let t0 := env.clock 0
  let s0 : State := { cycle := 0, clockCalls := 1, wakeupTime := t0, image := domain1_pd,
                      t_prev := env.t_prev }
  let b := bringUpLoop env fuel s0
  match b.exitCycle with
  | none =>
    { config := config ++ [Event.clock_gettime_wakeupTime t0], bringUp := b.events,
      control := [], exit := none }
  | some _ =>
    let t1 := env.clock b.state.clockCalls
    let s1 : State := { b.state with clockCalls := b.state.clockCalls + 1, wakeupTime := t1 }
    let c := controlLoop env b.fuelLeft s1
    { config := config ++ [Event.clock_gettime_wakeupTime t0], bringUp := b.events,
      control := Event.clock_gettime_wakeupTime t1 :: c.1, exit := none }

/-- main.c:119-131: scheduler set-up and the call of `mlockall`. -/
def startup (env : Env) : List Event :=
  [Event.sched_get_priority_max, Event.printf_priority env.priority,
    Event.sched_setscheduler] ++
  (if env.sched_setscheduler = -1 then [Event.perror Msg.schedSetschedulerFailed] else []) ++
  [Event.mlockall]

/-- main.c:137-159: stack prefault, signal handler, master request (a null handle is
reported and nothing else), initialisation of both drives, the two slave configurations. -/
def requestMaster (env : Env) : List Event :=
  [Event.stack_prefault, Event.signal, Event.ecrt_request_master] ++
  (if !env.master then [Event.printf Msg.requestingMasterFailed] else []) ++
  initDrive env 0 0 ++ initDrive env 3 1 ++
  [Event.ecrt_master_slave_config 0, Event.ecrt_master_slave_config 1]

/-- main.c:262-282: distributed-clock configuration of both drives and master activation. -/
def activate : List Event :=
  [Event.ecrt_slave_config_dc 0 0x0300 PERIOD_NS SHIFT0,
    Event.ecrt_slave_config_dc 1 0x0300 PERIOD_NS SHIFT0,
    Event.printf Msg.activatingMaster, Event.ecrt_master_activate]

/-- main.c:119-289, the part of `main` before the loops: the events it produces, and the
process image found at `domain1_pd` if every step succeeded (`none`: `main` executed one of
its `return -1;`). -/
def configure (env : Env) : List Event × Option Image :=
  let e1 := startup env
  if env.mlockall = -1 then
    (e1 ++ [Event.printf Msg.mlockallFailed], none)
  else
  let e2 := e1 ++ requestMaster env
  if !env.drive0 || !env.drive1 then
    (e2 ++ [Event.printf Msg.failedToGetSlaveConfiguration], none)
  else
  let e3 := e2 ++ [Event.ecrt_slave_config_pdos 0]
  if env.config_pdos0 ≠ 0 then
    (e3 ++ [Event.printf Msg.failedToConfigureSlave0Pdos], none)
  else
  let e4 := e3 ++ [Event.ecrt_slave_config_pdos 1]
  if env.config_pdos1 ≠ 0 then
    (e4 ++ [Event.printf Msg.failedToConfigureSlave1Pdos], none)
  else
  let e5 := e4 ++ [Event.ecrt_master_create_domain, Event.ecrt_domain_reg_pdo_entry_list]
  if env.reg_pdo_entry_list ≠ 0 then
    (e5 ++ [Event.printf Msg.pdoEntryRegistrationFailed], none)
  else
  let e6 := e5 ++ activate
  if env.activate ≠ 0 then
    (e6, none)
  else
  match env.domain_data with
  | none => (e6 ++ [Event.ecrt_domain_data], none)
  | some domain1_pd => (e6 ++ [Event.ecrt_domain_data], some domain1_pd)

/-- `main` (main.c:116-412), with `DC` and `MEASURE_TIMING` defined. -/
def main (env : Env) (fuel : Nat) : Run :=
  match configure env with
  | (config, none) => { config := config, bringUp := [], control := [], exit := some (-1) }
  | (config, some domain1_pd) => cyclicTask env fuel config domain1_pd

/-- The wake-up times handed to `clock_nanosleep(CLOCK_MONOTONIC, TIMER_ABSTIME, ...)`, in
program order. -/
def wakeTimes : List Event → List Timespec
  | [] => []
  | Event.clock_nanosleep t :: es => t :: wakeTimes es
  | _ :: es => wakeTimes es

/-- The layout the master library computes for two drives with the PDO mapping of
main.c:172-217: per drive, control word (2 bytes), target position (4), status word (2),
actual position (4). -/
def exampleOffsets : Offsets :=
  { controlWord0 := 0, targetPos0 := 2, statusWord0 := 6, actPos0 := 8,
    controlWord1 := 12, targetPos1 := 14, statusWord1 := 18, actPos1 := 20 }

/-- An environment in which every configuration step succeeds, both drives report
operational from cycle `n` on, and the clock reads `clock`. -/
def exampleEnv (n : Nat) (clock : Nat → Timespec) : Env :=
  { priority := 99, sched_setscheduler := 0, mlockall := 0, master := true,
    sdo_download := fun _ => 0, drive0 := true, drive1 := true,
    config_pdos0 := 0, config_pdos1 := 0, reg_pdo_entry_list := 0,
    offsets := exampleOffsets, activate := 0,
    domain_data := some (List.replicate 24 0),
    clock := clock,
    exchange := fun _ img => img,
    operational := fun k => (decide (n ≤ k), decide (n ≤ k + 1)),
    reference_clock_time := fun k => 1000000 * k,
    t_prev := 0 }

/-- The four output fields of the registered layout, control word (2 bytes) and target
position (4 bytes) of each drive, lie inside an image of `size` bytes and do not overlap
one another. -/
def Offsets.outputsDisjoint (o : Offsets) (size : Nat) : Prop :=
  o.controlWord0 + 2 ≤ size ∧ o.targetPos0 + 4 ≤ size ∧
  o.controlWord1 + 2 ≤ size ∧ o.targetPos1 + 4 ≤ size ∧
  (o.controlWord0 + 2 ≤ o.targetPos0 ∨ o.targetPos0 + 4 ≤ o.controlWord0) ∧
  (o.controlWord0 + 2 ≤ o.controlWord1 ∨ o.controlWord1 + 2 ≤ o.controlWord0) ∧
  (o.controlWord0 + 2 ≤ o.targetPos1 ∨ o.targetPos1 + 4 ≤ o.controlWord0) ∧
  (o.targetPos0 + 4 ≤ o.controlWord1 ∨ o.controlWord1 + 2 ≤ o.targetPos0) ∧
  (o.targetPos0 + 4 ≤ o.targetPos1 ∨ o.targetPos1 + 4 ≤ o.targetPos0) ∧
  (o.controlWord1 + 2 ≤ o.targetPos1 ∨ o.targetPos1 + 4 ≤ o.controlWord1)

instance (o : Offsets) (size : Nat) : Decidable (o.outputsDisjoint size) := by
  unfold Offsets.outputsDisjoint; exact inferInstance

/-- The variables of `main` on entry to a loop, in a run whose image holds 0xFF bytes. -/
def exampleState : State :=
  { cycle := 0, clockCalls := 1, wakeupTime := ⟨7, 999500000⟩,
    image := List.replicate 24 255, t_prev := 4294967290 }

/-- An environment in which `ecrt_request_master` returns a null handle and every later
call made on that handle fails. -/
def masterFailEnv : Env :=
  { exampleEnv 0 (fun _ => ⟨0, 0⟩) with
    master := false, sdo_download := fun _ => -5, drive0 := false, drive1 := false }

/-- An environment in which `ecrt_request_master` returns a null handle and every later
call is answered as if it had succeeded. -/
def masterFailEnv2 : Env :=
  { exampleEnv 0 (fun _ => ⟨0, 0⟩) with master := false }

/-- Place of an event in the order of bus transactions of one cycle: 0 receive, 1 process,
2 a slave-state check or an access to the process image, 3 queue, 4 application time,
5 reference-clock sync, 6 slave-clock sync, 7 send. Other events have no place. -/
def busRank : Event → Option Nat
  | Event.ecrt_master_receive => some 0
  | Event.ecrt_domain_process => some 1
  | Event.ecrt_slave_config_state _ => some 2
  | Event.read_s32 _ => some 2
  | Event.write_u8 _ _ => some 2
  | Event.write_s32 _ _ => some 2
  | Event.ecrt_domain_queue => some 3
  | Event.ecrt_master_application_time _ => some 4
  | Event.ecrt_master_sync_reference_clock => some 5
  | Event.ecrt_master_sync_slave_clocks => some 6
  | Event.ecrt_master_send => some 7
  | _ => none

/-- The values handed to `ecrt_master_application_time`, in program order. -/
def applicationTimes : List Event → List Int
  | [] => []
  | Event.ecrt_master_application_time ns :: es => ns :: applicationTimes es
  | _ :: es => applicationTimes es

/-- Two wake-up times are exactly one period apart. -/
def periodStep (a b : Timespec) : Prop := b.totalNs - a.totalNs = PERIOD_NS

instance : DecidableRel periodStep := fun a b =>
  inferInstanceAs (Decidable (b.totalNs - a.totalNs = PERIOD_NS))

/-- A clock reading with a normalised nanosecond field to which `cycles` periods can be
added without `tv_sec` leaving `time_t`. -/
def Timespec.allows (t : Timespec) (cycles : Nat) : Prop :=
  (0 ≤ t.tv_nsec ∧ t.tv_nsec < 1000000000) ∧
  -9223372036854775808 ≤ t.tv_sec ∧ t.tv_sec + cycles < 9223372036854775808

instance (t : Timespec) (cycles : Nat) : Decidable (t.allows cycles) :=
  inferInstanceAs (Decidable ((0 ≤ t.tv_nsec ∧ t.tv_nsec < 1000000000) ∧
    -9223372036854775808 ≤ t.tv_sec ∧ t.tv_sec + cycles < 9223372036854775808))

/-- Both drives were reported operational in cycle `k`. -/
def bothOperational (env : Env) (k : Nat) : Prop :=
  (env.operational k).1 = true ∧ (env.operational k).2 = true

instance (env : Env) (k : Nat) : Decidable (bothOperational env k) :=
  inferInstanceAs (Decidable ((env.operational k).1 = true ∧ (env.operational k).2 = true))

theorem wrapS64_id {x : Int} (h1 : -9223372036854775808 ≤ x) (h2 : x < 9223372036854775808) :
    wrapS64 x = x := by
  unfold wrapS64
  rw [Int.emod_eq_of_lt (by omega) (by omega)]
  omega

theorem wrapS32_id {x : Int} (h1 : -2147483648 ≤ x) (h2 : x < 2147483648) :
    wrapS32 x = x := by
  unfold wrapS32
  rw [Int.emod_eq_of_lt (by omega) (by omega)]
  omega

/-! ## `timespec_add` -/

/-- C2, as stated, fails: for `time1 = {2^63 - 1, 999999999}` (both `tv_nsec` fields in
`[0, 10^9)`) and `time2 = cycleTime`, the nanosecond carry pushes `tv_sec` past the largest
`time_t`, and the result does not denote the sum of the two arguments. -/
theorem timespec_add_overflow_counterexample :
    (0 ≤ (999999999 : Int) ∧ (999999999 : Int) < 1000000000) ∧
    (0 ≤ cycleTime.tv_nsec ∧ cycleTime.tv_nsec < 1000000000) ∧
    Timespec.representable ⟨9223372036854775807, 999999999⟩ ∧
    timespec_add ⟨9223372036854775807, 999999999⟩ cycleTime = ⟨-9223372036854775808, 999999⟩ ∧
    (timespec_add ⟨9223372036854775807, 999999999⟩ cycleTime).totalNs ≠
      (Timespec.totalNs ⟨9223372036854775807, 999999999⟩) + cycleTime.totalNs := by
  decide

/-- C2, amended: for timespecs whose `tv_nsec` fields lie in `[0, 10^9)` and whose seconds
sum, with the carry when there is one, stays inside `time_t`, `timespec_add` returns a
result with `tv_nsec` in `[0, 10^9)` that denotes exactly the sum of the two arguments;
and `cycleTime` denotes 1,000,000 ns, so adding it advances the total by exactly that. -/
theorem timespec_add_total (time1 time2 : Timespec)
    (h1 : 0 ≤ time1.tv_nsec ∧ time1.tv_nsec < 1000000000)
    (h2 : 0 ≤ time2.tv_nsec ∧ time2.tv_nsec < 1000000000)
    (hlo : -9223372036854775808 ≤ time1.tv_sec + time2.tv_sec)
    (hhi : time1.tv_sec + time2.tv_sec
      + (if time1.tv_nsec + time2.tv_nsec ≥ 1000000000 then 1 else 0) < 9223372036854775808) :
    (0 ≤ (timespec_add time1 time2).tv_nsec ∧ (timespec_add time1 time2).tv_nsec < 1000000000) ∧
    (timespec_add time1 time2).totalNs = time1.totalNs + time2.totalNs ∧
    cycleTime.totalNs = 1000000 := by
  have hn : wrapS64 (time1.tv_nsec + time2.tv_nsec) = time1.tv_nsec + time2.tv_nsec :=
    wrapS64_id (by omega) (by omega)
  have hs : wrapS64 (time1.tv_sec + time2.tv_sec) = time1.tv_sec + time2.tv_sec := by
    split at hhi <;> exact wrapS64_id (by omega) (by omega)
  have hn1 : wrapS64 (time1.tv_nsec + time2.tv_nsec - 1000000000)
      = time1.tv_nsec + time2.tv_nsec - 1000000000 :=
    wrapS64_id (by omega) (by omega)
  by_cases hc : time1.tv_nsec + time2.tv_nsec ≥ 1000000000
  · rw [if_pos hc] at hhi
    have hs1 : wrapS64 (time1.tv_sec + time2.tv_sec + 1) = time1.tv_sec + time2.tv_sec + 1 :=
      wrapS64_id (by omega) (by omega)
    have e : timespec_add time1 time2
        = { tv_sec := time1.tv_sec + time2.tv_sec + 1,
            tv_nsec := time1.tv_nsec + time2.tv_nsec - 1000000000 } := by
      unfold timespec_add
      rw [hn, hs]
      simp only [NSEC_PER_SEC]
      rw [if_pos hc, hs1, hn1]
    rw [e]
    unfold Timespec.totalNs
    simp only
    exact ⟨by omega, by omega, by decide⟩
  · have e : timespec_add time1 time2
        = { tv_sec := time1.tv_sec + time2.tv_sec,
            tv_nsec := time1.tv_nsec + time2.tv_nsec } := by
      unfold timespec_add
      rw [hn, hs]
      simp only [NSEC_PER_SEC]
      rw [if_neg hc]
    rw [e]
    unfold Timespec.totalNs
    simp only
    exact ⟨by omega, by omega, by decide⟩

/-- The amended C2 at `time1 = {3, 999500000}`, `time2 = cycleTime`: the nanosecond field
carries into the seconds field. -/
theorem timespec_add_total_witness :
    (timespec_add ⟨3, 999500000⟩ cycleTime = ⟨4, 500000⟩) ∧
    ((0 ≤ (timespec_add ⟨3, 999500000⟩ cycleTime).tv_nsec ∧
      (timespec_add ⟨3, 999500000⟩ cycleTime).tv_nsec < 1000000000) ∧
    (timespec_add ⟨3, 999500000⟩ cycleTime).totalNs =
      (Timespec.totalNs ⟨3, 999500000⟩) + cycleTime.totalNs ∧
    cycleTime.totalNs = 1000000) :=
  ⟨by decide, timespec_add_total ⟨3, 999500000⟩ cycleTime (by decide) (by decide)
    (by decide) (by decide)⟩

/-! ## The reference-clock delta -/

/-- C5: the value printed in a control cycle is `t_cur - t_prev` computed on `uint32_t`;
it equals `(t_cur - t_prev) mod 2^32`, lies in `[0, 2^32)`, and is 11 for
`t_prev = 4294967290` and `t_cur = 5`. -/
theorem reference_clock_delta (t_cur t_prev : Nat) :
    ((subU32 t_cur t_prev : Nat) : Int) = ((t_cur : Int) - (t_prev : Int)) % 4294967296 ∧
    subU32 t_cur t_prev < 4294967296 ∧
    subU32 5 4294967290 = 11 ∧
    ∀ (env : Env) (s : State),
      Event.printf_u32 (subU32 (env.reference_clock_time s.cycle % 4294967296) s.t_prev)
        ∈ (controlCycle env s).events := by
  refine ⟨?_, ?_, by decide, ?_⟩
  · unfold subU32
    omega
  · unfold subU32
    omega
  · intro env s
    simp [controlCycle]

/-! ## The motion law -/

/-- C6, as stated, fails: at the largest 32-bit position the sum `actPos0 + 5000` leaves
`int32_t` and the stored setpoint is negative; at the smallest one `actPos1 - 5000` does. -/
theorem targetPos_overflow_counterexample :
    targetPos0 2147483647 = -2147478649 ∧ targetPos0 2147483647 ≠ 2147483647 + 5000 ∧
    targetPos1 (-2147483648) = 2147478648 ∧ targetPos1 (-2147483648) ≠ -2147483648 - 5000 := by
  decide

/-- C6, amended: for measured positions whose setpoint still fits `int32_t`, the setpoints
are `actPos0 + 5000` and `actPos1 - 5000` as mathematical integers; 100000 gives 105000 and
95000; and the values a control cycle writes are these functions of the positions it read
from the image in that same cycle, whatever the variables carried over from earlier
cycles hold. -/
theorem targetPos_law (actPos0 actPos1 : Int)
    (h0 : -2147483648 ≤ actPos0) (h0hi : actPos0 + 5000 < 2147483648)
    (h1 : -2147483648 ≤ actPos1 - 5000) (h1hi : actPos1 < 2147483648) :
    targetPos0 actPos0 = actPos0 + 5000 ∧ targetPos1 actPos1 = actPos1 - 5000 ∧
    targetPos0 100000 = 105000 ∧ targetPos1 100000 = 95000 ∧
    ∀ (env : Env) (s : State),
      Event.write_s32 env.offsets.targetPos0
          (targetPos0 (EC_READ_S32 (env.exchange s.cycle s.image) env.offsets.actPos0))
        ∈ (controlCycle env s).events ∧
      Event.write_s32 env.offsets.targetPos1
          (targetPos1 (EC_READ_S32 (env.exchange s.cycle s.image) env.offsets.actPos1))
        ∈ (controlCycle env s).events ∧
      (controlCycle env s).state.image =
        writePDOs (env.exchange s.cycle s.image) env.offsets
          (targetPos0 (EC_READ_S32 (env.exchange s.cycle s.image) env.offsets.actPos0))
          (targetPos1 (EC_READ_S32 (env.exchange s.cycle s.image) env.offsets.actPos1)) := by
  refine ⟨wrapS32_id (by omega) (by omega), wrapS32_id (by omega) (by omega),
    by decide, by decide, ?_⟩
  intro env s
  simp [controlCycle]

/-- The amended C6 at `actPos0 = actPos1 = 100000`. -/
theorem targetPos_law_witness :
    targetPos0 100000 = 100000 + 5000 ∧ targetPos1 100000 = 100000 - 5000 :=
  ⟨(targetPos_law 100000 100000 (by decide) (by decide) (by decide) (by decide)).1,
   (targetPos_law 100000 100000 (by decide) (by decide) (by decide) (by decide)).2.1⟩

/-! ## The process image -/

theorem length_EC_WRITE_U8 (img : Image) (c : Nat) (x : Int) :
    (EC_WRITE_U8 img c x).length = img.length := by
  simp [EC_WRITE_U8]

theorem length_EC_WRITE_S32 (img : Image) (t : Nat) (x : Int) :
    (EC_WRITE_S32 img t x).length = img.length := by
  simp [EC_WRITE_S32]

theorem length_writePDOs (img : Image) (o : Offsets) (v0 v1 : Int) :
    (writePDOs img o v0 v1).length = img.length := by
  simp [writePDOs, length_EC_WRITE_U8, length_EC_WRITE_S32]

theorem getElem?_EC_WRITE_U8_ne (img : Image) (c : Nat) (x : Int) (i : Nat) (h : i ≠ c) :
    (EC_WRITE_U8 img c x)[i]? = img[i]? := by
  unfold EC_WRITE_U8
  rw [List.getElem?_set_ne (Ne.symm h)]

theorem getElem?_EC_WRITE_U8_self (img : Image) (c : Nat) (x : Int) (h : c < img.length) :
    (EC_WRITE_U8 img c x)[c]? = some (toU8 x).toNat := by
  unfold EC_WRITE_U8
  rw [List.getElem?_set_self h]

theorem getElem?_EC_WRITE_S32_out (img : Image) (t : Nat) (x : Int) (i : Nat)
    (h : i < t ∨ t + 4 ≤ i) : (EC_WRITE_S32 img t x)[i]? = img[i]? := by
  unfold EC_WRITE_S32
  simp only
  rw [List.getElem?_set_ne (by omega), List.getElem?_set_ne (by omega),
    List.getElem?_set_ne (by omega), List.getElem?_set_ne (by omega)]

/-- Every byte outside the six written places is left alone by the writes of a control
cycle. -/
theorem getElem?_writePDOs_out (img : Image) (o : Offsets) (v0 v1 : Int) (i : Nat)
    (hc0 : i ≠ o.controlWord0) (hc1 : i ≠ o.controlWord1)
    (ht0 : i < o.targetPos0 ∨ o.targetPos0 + 4 ≤ i)
    (ht1 : i < o.targetPos1 ∨ o.targetPos1 + 4 ≤ i) :
    (writePDOs img o v0 v1)[i]? = img[i]? := by
  unfold writePDOs
  simp only
  rw [getElem?_EC_WRITE_S32_out _ _ _ _ ht1, getElem?_EC_WRITE_U8_ne _ _ _ _ hc1,
    getElem?_EC_WRITE_S32_out _ _ _ _ ht0, getElem?_EC_WRITE_U8_ne _ _ _ _ hc0]

/-- Reading back what `EC_WRITE_S32` stored, inside the image. -/
theorem EC_READ_S32_EC_WRITE_S32 (img : Image) (t : Nat) (v : Int)
    (ht : t + 4 ≤ img.length) (hlo : -2147483648 ≤ v) (hhi : v < 2147483648) :
    EC_READ_S32 (EC_WRITE_S32 img t v) t = v := by
  unfold EC_READ_S32 EC_WRITE_S32
  simp only [List.getD_eq_getElem?_getD]
  rw [List.getElem?_set_ne (by omega), List.getElem?_set_ne (by omega),
    List.getElem?_set_ne (by omega), List.getElem?_set_self (by omega)]
  rw [List.getElem?_set_ne (by omega), List.getElem?_set_ne (by omega),
    List.getElem?_set_self (by rw [List.length_set]; omega)]
  rw [List.getElem?_set_ne (by omega),
    List.getElem?_set_self (by rw [List.length_set, List.length_set]; omega)]
  rw [List.getElem?_set_self
    (by rw [List.length_set, List.length_set, List.length_set]; omega)]
  simp only [Option.getD_some]
  unfold wrapS32 toU32
  have hu : ((v % 4294967296).toNat : Int) = v % 4294967296 :=
    Int.toNat_of_nonneg (Int.emod_nonneg _ (by decide))
  generalize (v % 4294967296).toNat = u at hu
  push_cast
  omega

/-- A read of four bytes sees no write that stays outside them. -/
theorem EC_READ_S32_congr (img img2 : Image) (t : Nat)
    (h : ∀ i, t ≤ i → i < t + 4 → img2[i]? = img[i]?) :
    EC_READ_S32 img2 t = EC_READ_S32 img t := by
  unfold EC_READ_S32
  simp only [List.getD_eq_getElem?_getD]
  rw [h t (by omega) (by omega), h (t + 1) (by omega) (by omega),
    h (t + 2) (by omega) (by omega), h (t + 3) (by omega) (by omega)]

/-- C7: for every 32-bit signed value, reading back with `EC_READ_S32` what
`EC_WRITE_S32` stored inside the image yields the value; and after the four writes of a
control cycle each target-position field that lies inside the image and is clear of the
bytes written after it decodes to the value written to it. -/
theorem target_position_roundtrip (img : Image) (o : Offsets) (v0 v1 : Int)
    (hv0 : -2147483648 ≤ v0 ∧ v0 < 2147483648) (hv1 : -2147483648 ≤ v1 ∧ v1 < 2147483648) :
    (∀ t, t + 4 ≤ img.length → EC_READ_S32 (EC_WRITE_S32 img t v0) t = v0) ∧
    (o.targetPos0 + 4 ≤ img.length →
      (o.controlWord1 < o.targetPos0 ∨ o.targetPos0 + 4 ≤ o.controlWord1) →
      (o.targetPos1 + 4 ≤ o.targetPos0 ∨ o.targetPos0 + 4 ≤ o.targetPos1) →
      EC_READ_S32 (writePDOs img o v0 v1) o.targetPos0 = v0) ∧
    (o.targetPos1 + 4 ≤ img.length →
      EC_READ_S32 (writePDOs img o v0 v1) o.targetPos1 = v1) := by
  refine ⟨fun t ht => EC_READ_S32_EC_WRITE_S32 img t v0 ht hv0.1 hv0.2, ?_, ?_⟩
  · intro hin hc1 ht1
    unfold writePDOs
    simp only
    rw [EC_READ_S32_congr (EC_WRITE_S32 (EC_WRITE_U8 img o.controlWord0 15) o.targetPos0 v0)]
    · exact EC_READ_S32_EC_WRITE_S32 _ _ _ (by rw [length_EC_WRITE_U8]; exact hin) hv0.1 hv0.2
    · intro i hi1 hi2
      rw [getElem?_EC_WRITE_S32_out _ _ _ _ (by omega),
        getElem?_EC_WRITE_U8_ne _ _ _ _ (by omega)]
  · intro hin
    unfold writePDOs
    simp only
    exact EC_READ_S32_EC_WRITE_S32 _ _ _
      (by rw [length_EC_WRITE_U8, length_EC_WRITE_S32, length_EC_WRITE_U8]; exact hin)
      hv1.1 hv1.2

/-- C7 at a 24-byte image of 0xFF bytes with the layout of two drives, writing 105000 and
-5000. -/
theorem target_position_roundtrip_witness :
    EC_READ_S32 (EC_WRITE_S32 (List.replicate 24 255) 2 105000) 2 = 105000 ∧
    EC_READ_S32 (writePDOs (List.replicate 24 255) exampleOffsets 105000 (-5000)) 2 = 105000 ∧
    EC_READ_S32 (writePDOs (List.replicate 24 255) exampleOffsets 105000 (-5000)) 14 = -5000 :=
  ⟨(target_position_roundtrip (List.replicate 24 255) exampleOffsets 105000 (-5000)
      (by decide) (by decide)).1 2 (by decide),
   (target_position_roundtrip (List.replicate 24 255) exampleOffsets 105000 (-5000)
      (by decide) (by decide)).2.1 (by decide) (by decide) (by decide),
   (target_position_roundtrip (List.replicate 24 255) exampleOffsets 105000 (-5000)
      (by decide) (by decide)).2.2 (by decide)⟩

/-- C8, as stated, fails: on an image whose bytes are all 0xFF, with the layout of two
drives, the 16-bit control-word fields decode to 0xFF0F after the writes of a control
cycle, because only their low byte is written. -/
theorem control_word_counterexample :
    EC_READ_U16 (writePDOs (List.replicate 24 255) exampleOffsets 0 0)
      exampleOffsets.controlWord0 = 0xFF0F ∧
    EC_READ_U16 (writePDOs (List.replicate 24 255) exampleOffsets 0 0)
      exampleOffsets.controlWord1 = 0xFF0F ∧
    EC_READ_U16 (controlCycle (exampleEnv 0 (fun _ => ⟨0, 0⟩))
      { cycle := 0, clockCalls := 0, wakeupTime := ⟨0, 0⟩, image := List.replicate 24 255,
        t_prev := 0 }).state.image exampleOffsets.controlWord0 ≠ 0x000F := by
  decide

/-- C8, amended: when the output fields lie inside the image and do not overlap, after the
writes of a control cycle the byte at each control-word offset is 0x0F, the byte after it
(the high byte of the 16-bit field) is what it was before, and so the 16-bit field
decodes to `0x0F + 256 * (previous high byte)`: 0x000F when that byte was 0. -/
theorem control_word_low_byte (img : Image) (o : Offsets) (v0 v1 : Int)
    (h : o.outputsDisjoint img.length) :
    (writePDOs img o v0 v1)[o.controlWord0]? = some 0x0F ∧
    (writePDOs img o v0 v1)[o.controlWord1]? = some 0x0F ∧
    (writePDOs img o v0 v1)[o.controlWord0 + 1]? = img[o.controlWord0 + 1]? ∧
    (writePDOs img o v0 v1)[o.controlWord1 + 1]? = img[o.controlWord1 + 1]? ∧
    EC_READ_U16 (writePDOs img o v0 v1) o.controlWord0
      = (0x0F + 256 * img.getD (o.controlWord0 + 1) 0) % 65536 ∧
    EC_READ_U16 (writePDOs img o v0 v1) o.controlWord1
      = (0x0F + 256 * img.getD (o.controlWord1 + 1) 0) % 65536 := by
  obtain ⟨b0, b1, b2, b3, d01, d02, d03, d12, d13, d23⟩ := h
  have e0 : (writePDOs img o v0 v1)[o.controlWord0]? = some 0x0F := by
    unfold writePDOs
    simp only
    rw [getElem?_EC_WRITE_S32_out _ _ _ _ (by omega), getElem?_EC_WRITE_U8_ne _ _ _ _ (by omega),
      getElem?_EC_WRITE_S32_out _ _ _ _ (by omega), getElem?_EC_WRITE_U8_self _ _ _ (by omega)]
    rfl
  have e1 : (writePDOs img o v0 v1)[o.controlWord1]? = some 0x0F := by
    unfold writePDOs
    simp only
    rw [getElem?_EC_WRITE_S32_out _ _ _ _ (by omega),
      getElem?_EC_WRITE_U8_self _ _ _
        (by rw [length_EC_WRITE_S32, length_EC_WRITE_U8]; omega)]
    rfl
  have f0 : (writePDOs img o v0 v1)[o.controlWord0 + 1]? = img[o.controlWord0 + 1]? :=
    getElem?_writePDOs_out _ _ _ _ _ (by omega) (by omega) (by omega) (by omega)
  have f1 : (writePDOs img o v0 v1)[o.controlWord1 + 1]? = img[o.controlWord1 + 1]? :=
    getElem?_writePDOs_out _ _ _ _ _ (by omega) (by omega) (by omega) (by omega)
  refine ⟨e0, e1, f0, f1, ?_, ?_⟩
  · unfold EC_READ_U16
    simp only [List.getD_eq_getElem?_getD, e0, f0, Option.getD_some]
  · unfold EC_READ_U16
    simp only [List.getD_eq_getElem?_getD, e1, f1, Option.getD_some]

/-- The amended C8 at a zeroed 24-byte image with the layout of two drives: the 16-bit
control words decode to 0x000F. -/
theorem control_word_low_byte_witness :
    exampleOffsets.outputsDisjoint (List.replicate 24 0).length ∧
    EC_READ_U16 (writePDOs (List.replicate 24 0) exampleOffsets 7 9) 0 = 0x000F ∧
    EC_READ_U16 (writePDOs (List.replicate 24 0) exampleOffsets 7 9) 12 = 0x000F :=
  ⟨by decide,
   (control_word_low_byte (List.replicate 24 0) exampleOffsets 7 9 (by decide)).2.2.2.2.1,
   (control_word_low_byte (List.replicate 24 0) exampleOffsets 7 9 (by decide)).2.2.2.2.2⟩

/-- C10: a bring-up cycle contains no write to the image and leaves it as the bus
exchange left it; a control cycle keeps the image's size and leaves every byte other than
the one at `offset_controlWord0`, the one at `offset_controlWord1`, the four from
`offset_targetPos0` and the four from `offset_targetPos1` as the bus exchange left it. -/
theorem image_frame (env : Env) (s : State) (i : Nat)
    (hc0 : i ≠ env.offsets.controlWord0) (hc1 : i ≠ env.offsets.controlWord1)
    (ht0 : i < env.offsets.targetPos0 ∨ env.offsets.targetPos0 + 4 ≤ i)
    (ht1 : i < env.offsets.targetPos1 ∨ env.offsets.targetPos1 + 4 ≤ i) :
    (bringUpCycle env s).state.image = env.exchange s.cycle s.image ∧
    (∀ e ∈ (bringUpCycle env s).events, ∀ off v,
      e ≠ Event.write_u8 off v ∧ e ≠ Event.write_s32 off v) ∧
    (controlCycle env s).state.image.length = (env.exchange s.cycle s.image).length ∧
    (controlCycle env s).state.image[i]? = (env.exchange s.cycle s.image)[i]? := by
  refine ⟨?_, ?_, ?_, ?_⟩
  · unfold bringUpCycle
    simp only
    split <;> rfl
  · intro e he off v
    unfold bringUpCycle at he
    simp only at he
    split at he
    · simp at he
      rcases he with h | h | h | h | h | h <;> subst h <;> simp
    · simp at he
      rcases he with h | h | h | h | h | h | h | h | h | h | h <;> subst h <;> simp
  · simp [controlCycle, length_writePDOs]
  · simp only [controlCycle]
    exact getElem?_writePDOs_out _ _ _ _ _ hc0 hc1 ht0 ht1

/-- C10 at a 24-byte image with the layout of two drives: byte 8, the first byte of the
actual position of drive 0, is untouched by a control cycle. -/
theorem image_frame_witness :
    (controlCycle (exampleEnv 0 (fun _ => ⟨0, 0⟩)) exampleState).state.image[8]? =
      ((exampleEnv 0 (fun _ => ⟨0, 0⟩)).exchange exampleState.cycle exampleState.image)[8]? :=
  (image_frame (exampleEnv 0 (fun _ => ⟨0, 0⟩)) exampleState 8
    (by decide) (by decide) (by decide) (by decide)).2.2.2

/-! ## Order of the bus transactions -/

theorem TIMESPEC2NS_eq (t : Timespec) :
    TIMESPEC2NS t = (t.tv_sec * 1000000000 + t.tv_nsec) % 18446744073709551616 := by
  unfold TIMESPEC2NS toU64 NSEC_PER_SEC
  omega

/-- C9: in a cycle of either loop the bus calls come in the order receive, process, state
checks and image accesses, queue, application time, reference-clock sync, slave-clock
sync, send, each of the seven calls at most once; in a control cycle each of them occurs
exactly once; and the application time is the monotonic time read in that cycle, as
`tv_sec * 10^9 + tv_nsec` reduced to 64 bits. -/
theorem bus_call_order (env : Env) (s : State) :
    ((bringUpCycle env s).events.filterMap busRank).Pairwise (· ≤ ·) ∧
    (∀ r ∈ [0, 1, 3, 4, 5, 6, 7], ((bringUpCycle env s).events.filterMap busRank).count r ≤ 1) ∧
    ((controlCycle env s).events.filterMap busRank).Pairwise (· ≤ ·) ∧
    (∀ r ∈ [0, 1, 3, 4, 5, 6, 7], ((controlCycle env s).events.filterMap busRank).count r = 1) ∧
    applicationTimes (bringUpCycle env s).events =
      (if (bringUpCycle env s).leave then []
       else [((env.clock s.clockCalls).tv_sec * 1000000000 + (env.clock s.clockCalls).tv_nsec)
              % 18446744073709551616]) ∧
    applicationTimes (controlCycle env s).events =
      [((env.clock s.clockCalls).tv_sec * 1000000000 + (env.clock s.clockCalls).tv_nsec)
        % 18446744073709551616] ∧
    Event.clock_gettime_time (env.clock s.clockCalls) ∈ (controlCycle env s).events := by
  have hb : (bringUpCycle env s).events.filterMap busRank =
      if (bringUpCycle env s).leave then [0, 1, 2, 2] else [0, 1, 2, 2, 3, 4, 5, 6, 7] := by
    unfold bringUpCycle
    simp only
    split <;> rfl
  have hc : (controlCycle env s).events.filterMap busRank =
      [0, 1, 2, 2, 2, 2, 2, 2, 3, 4, 5, 6, 7] := rfl
  refine ⟨?_, ?_, ?_, ?_, ?_, ?_, ?_⟩
  · rw [hb]; split <;> decide
  · rw [hb]; split <;> decide
  · rw [hc]; decide
  · rw [hc]; decide
  · unfold bringUpCycle
    simp only
    split
    · rfl
    · simp [applicationTimes, TIMESPEC2NS_eq]
  · simp [controlCycle, applicationTimes, TIMESPEC2NS_eq]
  · simp [controlCycle]

/-! ## The bring-up loop -/

theorem bringUpCycle_leave (env : Env) (s : State) :
    (bringUpCycle env s).leave = true ↔ bothOperational env s.cycle := by
  unfold bringUpCycle bothOperational
  simp only
  split
  · rename_i h
    simpa using h
  · rename_i h
    simpa using h

theorem bringUpCycle_cycle (env : Env) (s : State) :
    (bringUpCycle env s).state.cycle = s.cycle + 1 := by
  unfold bringUpCycle
  simp only
  split <;> rfl

theorem bringUpCycle_count (env : Env) (s : State) :
    (bringUpCycle env s).events.count (Event.printf Msg.allSlavesHaveReachedOp) =
      if (bringUpCycle env s).leave then 1 else 0 := by
  unfold bringUpCycle
  simp only
  split <;> simp [List.count_cons]

theorem bringUpLoop_exitCycle (env : Env) (fuel : Nat) (s : State) (k : Nat) :
    (bringUpLoop env fuel s).exitCycle = some k ↔
      (s.cycle ≤ k ∧ k < s.cycle + fuel ∧ bothOperational env k ∧
        ∀ j, s.cycle ≤ j → j < k → ¬ bothOperational env j) := by
  induction fuel generalizing s with
  | zero =>
    simp only [bringUpLoop]
    constructor
    · intro h; cases h
    · rintro ⟨h1, h2, -⟩; omega
  | succ n ih =>
    unfold bringUpLoop
    simp only
    by_cases hl : (bringUpCycle env s).leave = true
    · rw [if_pos hl]
      have hop := (bringUpCycle_leave env s).1 hl
      simp only [Option.some.injEq]
      constructor
      · intro h
        subst h
        exact ⟨le_refl _, by omega, hop, fun j h1 h2 => by omega⟩
      · rintro ⟨h1, -, -, h4⟩
        by_contra hne
        exact h4 s.cycle (le_refl _) (by omega) hop
    · rw [if_neg hl]
      have hop : ¬ bothOperational env s.cycle := fun h => hl ((bringUpCycle_leave env s).2 h)
      simp only
      rw [ih, bringUpCycle_cycle]
      constructor
      · rintro ⟨h1, h2, h3, h4⟩
        refine ⟨by omega, by omega, h3, fun j hj1 hj2 => ?_⟩
        by_cases hj : j = s.cycle
        · subst hj; exact hop
        · exact h4 j (by omega) hj2
      · rintro ⟨h1, h2, h3, h4⟩
        have hk : k ≠ s.cycle := fun h => hop (h ▸ h3)
        exact ⟨by omega, by omega, h3, fun j hj1 hj2 => h4 j (by omega) hj2⟩

theorem bringUpLoop_count (env : Env) (fuel : Nat) (s : State) :
    (bringUpLoop env fuel s).events.count (Event.printf Msg.allSlavesHaveReachedOp) =
      if (bringUpLoop env fuel s).exitCycle.isSome then 1 else 0 := by
  induction fuel generalizing s with
  | zero => simp [bringUpLoop]
  | succ n ih =>
    unfold bringUpLoop
    simp only
    by_cases hl : (bringUpCycle env s).leave = true
    · rw [if_pos hl]
      simp only [Option.isSome_some, if_true]
      rw [bringUpCycle_count, if_pos hl]
    · rw [if_neg hl]
      simp only [List.count_append]
      rw [bringUpCycle_count, if_neg hl, ih]
      simp

/-- C3: started at cycle 0 with a budget of `fuel` cycles, the bring-up loop executes its
`break` in cycle `k` if and only if `k` is within the budget, both drives are reported
operational in cycle `k`, and in no earlier cycle both were; the line announcing the
exit is printed once if the loop exits and never otherwise. A cycle observing one drive
operational and the other not is not a cycle with both operational, so the loop stays. -/
theorem bringUp_exit (env : Env) (fuel : Nat) (s : State) (k : Nat)
    (config : List Event) (domain1_pd : Image) :
    ((bringUpLoop env fuel { s with cycle := 0 }).exitCycle = some k ↔
      (k < fuel ∧ ((env.operational k).1 = true ∧ (env.operational k).2 = true) ∧
        ∀ j, j < k → ¬ ((env.operational j).1 = true ∧ (env.operational j).2 = true))) ∧
    (bringUpLoop env fuel { s with cycle := 0 }).events.count
        (Event.printf Msg.allSlavesHaveReachedOp) =
      (if (bringUpLoop env fuel { s with cycle := 0 }).exitCycle.isSome then 1 else 0) ∧
    ((cyclicTask env fuel config domain1_pd).control ≠ [] ↔
      ∃ n, n < fuel ∧ ((env.operational n).1 = true ∧ (env.operational n).2 = true) ∧
        ∀ j, j < n → ¬ ((env.operational j).1 = true ∧ (env.operational j).2 = true)) := by
  refine ⟨?_, bringUpLoop_count env fuel _, ?_⟩
  · rw [bringUpLoop_exitCycle]
    simp only [bothOperational, Nat.zero_le, Nat.zero_add, true_and, true_implies]
  · have key := bringUpLoop_exitCycle env fuel
      { cycle := 0, clockCalls := 1, wakeupTime := env.clock 0, image := domain1_pd,
        t_prev := env.t_prev }
    simp only [bothOperational, Nat.zero_le, Nat.zero_add, true_and, true_implies] at key
    unfold cyclicTask
    simp only
    split
    · rename_i hnone
      simp only [ne_eq, not_true_eq_false, false_iff, not_exists]
      intro n hn
      have := (key n).2 hn
      rw [hnone] at this
      cases this
    · rename_i n hsome
      simp only [ne_eq, reduceCtorEq, not_false_eq_true, true_iff]
      exact ⟨n, (key n).1 hsome⟩

/-- C3 in an environment where drive 1 is operational from cycle 1 and drive 0 from cycle
2: the loop stays in cycle 1 and leaves in cycle 2. -/
theorem bringUp_exit_witness :
    (exampleEnv 2 (fun _ => ⟨0, 0⟩)).operational 1 = (false, true) ∧
    (bringUpLoop (exampleEnv 2 (fun _ => ⟨0, 0⟩)) 5 { exampleState with cycle := 0 }).exitCycle
      = some 2 :=
  ⟨by decide,
   (bringUp_exit (exampleEnv 2 (fun _ => ⟨0, 0⟩)) 5 exampleState 2 [] []).1.2
     ⟨by decide, by decide, by decide⟩⟩

/-! ## Wake-up times -/

theorem wakeTimes_append (xs ys : List Event) :
    wakeTimes (xs ++ ys) = wakeTimes xs ++ wakeTimes ys := by
  induction xs with
  | nil => rfl
  | cons x xs ih =>
    cases x <;> simp [wakeTimes, ih]

theorem wakeTimes_bringUpCycle (env : Env) (s : State) :
    wakeTimes (bringUpCycle env s).events = [timespec_add s.wakeupTime cycleTime] ∧
    (bringUpCycle env s).state.wakeupTime = timespec_add s.wakeupTime cycleTime ∧
    (bringUpCycle env s).state.clockCalls + (if (bringUpCycle env s).leave then 1 else 0)
      = s.clockCalls + 1 := by
  unfold bringUpCycle
  simp only
  split <;> exact ⟨rfl, rfl, rfl⟩

theorem wakeTimes_controlCycle (env : Env) (s : State) :
    wakeTimes (controlCycle env s).events = [timespec_add s.wakeupTime cycleTime] ∧
    (controlCycle env s).state.wakeupTime = timespec_add s.wakeupTime cycleTime :=
  ⟨rfl, rfl⟩

/-- One period added to a wake-up time with a normalised nanosecond field, away from the
end of `time_t`. -/
theorem timespec_add_cycleTime (w : Timespec)
    (hn : 0 ≤ w.tv_nsec ∧ w.tv_nsec < 1000000000)
    (hlo : -9223372036854775808 ≤ w.tv_sec) (hhi : w.tv_sec + 1 < 9223372036854775808) :
    periodStep w (timespec_add w cycleTime) ∧
    (0 ≤ (timespec_add w cycleTime).tv_nsec ∧ (timespec_add w cycleTime).tv_nsec < 1000000000) ∧
    w.tv_sec ≤ (timespec_add w cycleTime).tv_sec ∧
    (timespec_add w cycleTime).tv_sec ≤ w.tv_sec + 1 := by
  have hp : cycleTime.tv_nsec = 1000000 := by decide
  have hs0 : cycleTime.tv_sec = 0 := rfl
  have hn' : wrapS64 (w.tv_nsec + 1000000) = w.tv_nsec + 1000000 :=
    wrapS64_id (by omega) (by omega)
  have hs : wrapS64 (w.tv_sec + 0) = w.tv_sec := by
    rw [Int.add_zero]; exact wrapS64_id hlo (by omega)
  have hs1 : wrapS64 (w.tv_sec + 1) = w.tv_sec + 1 := wrapS64_id (by omega) hhi
  have hn1 : wrapS64 (w.tv_nsec + 1000000 - 1000000000) = w.tv_nsec + 1000000 - 1000000000 :=
    wrapS64_id (by omega) (by omega)
  have hP : PERIOD_NS = 1000000 := by decide
  by_cases hc : w.tv_nsec + 1000000 ≥ 1000000000
  · have e : timespec_add w cycleTime
        = { tv_sec := w.tv_sec + 1, tv_nsec := w.tv_nsec + 1000000 - 1000000000 } := by
      unfold timespec_add
      rw [hp, hs0, hn', hs]
      simp only [NSEC_PER_SEC]
      rw [if_pos hc, hs1, hn1]
    rw [e]
    unfold periodStep Timespec.totalNs
    rw [hP]
    simp only
    omega
  · have e : timespec_add w cycleTime
        = { tv_sec := w.tv_sec, tv_nsec := w.tv_nsec + 1000000 } := by
      unfold timespec_add
      rw [hp, hs0, hn', hs]
      simp only [NSEC_PER_SEC]
      rw [if_neg hc]
    rw [e]
    unfold periodStep Timespec.totalNs
    rw [hP]
    simp only
    omega

theorem bringUpLoop_chain (env : Env) (fuel : Nat) (s : State)
    (hn : 0 ≤ s.wakeupTime.tv_nsec ∧ s.wakeupTime.tv_nsec < 1000000000)
    (hlo : -9223372036854775808 ≤ s.wakeupTime.tv_sec)
    (hhi : s.wakeupTime.tv_sec + fuel < 9223372036854775808) :
    List.Chain periodStep s.wakeupTime (wakeTimes (bringUpLoop env fuel s).events) := by
  induction fuel generalizing s with
  | zero => simp [bringUpLoop, wakeTimes]
  | succ n ih =>
    obtain ⟨h1, h2, h3, h4⟩ := timespec_add_cycleTime s.wakeupTime hn hlo (by omega)
    obtain ⟨e1, e2, -⟩ := wakeTimes_bringUpCycle env s
    unfold bringUpLoop
    simp only
    split
    · simp only [e1]
      exact List.Chain.cons h1 List.Chain.nil
    · simp only [wakeTimes_append, e1, List.singleton_append]
      refine List.Chain.cons h1 ?_
      rw [← e2]
      apply ih
      · rw [e2]; exact h2
      · rw [e2]; omega
      · rw [e2]; push_cast at hhi; omega

theorem controlLoop_chain (env : Env) (fuel : Nat) (s : State)
    (hn : 0 ≤ s.wakeupTime.tv_nsec ∧ s.wakeupTime.tv_nsec < 1000000000)
    (hlo : -9223372036854775808 ≤ s.wakeupTime.tv_sec)
    (hhi : s.wakeupTime.tv_sec + fuel < 9223372036854775808) :
    List.Chain periodStep s.wakeupTime (wakeTimes (controlLoop env fuel s).1) := by
  induction fuel generalizing s with
  | zero => simp [controlLoop, wakeTimes]
  | succ n ih =>
    obtain ⟨h1, h2, h3, h4⟩ := timespec_add_cycleTime s.wakeupTime hn hlo (by omega)
    obtain ⟨e1, e2⟩ := wakeTimes_controlCycle env s
    unfold controlLoop
    simp only [wakeTimes_append, e1, List.singleton_append]
    refine List.Chain.cons h1 ?_
    rw [← e2]
    apply ih
    · rw [e2]; exact h2
    · rw [e2]; omega
    · rw [e2]; push_cast at hhi; omega

theorem bringUpLoop_budget (env : Env) (fuel : Nat) (s : State) :
    (bringUpLoop env fuel s).fuelLeft ≤ fuel ∧
    (wakeTimes (bringUpLoop env fuel s).events).length ≤ fuel ∧
    ((bringUpLoop env fuel s).exitCycle.isSome →
      (bringUpLoop env fuel s).state.clockCalls + 1
        = s.clockCalls + (wakeTimes (bringUpLoop env fuel s).events).length) := by
  induction fuel generalizing s with
  | zero => simp [bringUpLoop, wakeTimes]
  | succ n ih =>
    obtain ⟨e1, -, e3⟩ := wakeTimes_bringUpCycle env s
    obtain ⟨i1, i2, i3⟩ := ih (bringUpCycle env s).state
    unfold bringUpLoop
    simp only
    by_cases hl : (bringUpCycle env s).leave = true
    · rw [if_pos hl]
      rw [if_pos hl] at e3
      simp only [e1, List.length_singleton, Option.isSome_some, true_implies]
      omega
    · rw [if_neg hl]
      rw [if_neg hl] at e3
      simp only [wakeTimes_append, e1, List.length_append, List.length_singleton]
      refine ⟨by omega, by omega, fun h => ?_⟩
      have := i3 h
      omega

theorem wakeTimes_initDrive (env : Env) (n slavePos : Nat) :
    wakeTimes (initDrive env n slavePos) = [] := by
  unfold initDrive ODwrite
  simp only
  repeat' split
  all_goals rfl

theorem cyclicTask_config (env : Env) (fuel : Nat) (config : List Event) (domain1_pd : Image) :
    (cyclicTask env fuel config domain1_pd).config
      = config ++ [Event.clock_gettime_wakeupTime (env.clock 0)] ∧
    (cyclicTask env fuel config domain1_pd).exit = none := by
  unfold cyclicTask
  simp only
  split <;> exact ⟨rfl, rfl⟩

theorem cyclicTask_wake (env : Env) (fuel : Nat) (config : List Event) (domain1_pd : Image)
    (h0 : (env.clock 0).allows fuel)
    (h1 : (env.clock (wakeTimes (cyclicTask env fuel config domain1_pd).bringUp).length).allows
      fuel) :
    List.Chain periodStep (env.clock 0)
      (wakeTimes (cyclicTask env fuel config domain1_pd).bringUp) ∧
    List.Chain periodStep
      (env.clock (wakeTimes (cyclicTask env fuel config domain1_pd).bringUp).length)
      (wakeTimes (cyclicTask env fuel config domain1_pd).control) := by
  have hb := bringUpLoop_chain env fuel
    { cycle := 0, clockCalls := 1, wakeupTime := env.clock 0, image := domain1_pd,
      t_prev := env.t_prev } h0.1 h0.2.1 h0.2.2
  have hbud := bringUpLoop_budget env fuel
    { cycle := 0, clockCalls := 1, wakeupTime := env.clock 0, image := domain1_pd,
      t_prev := env.t_prev }
  unfold cyclicTask at h1 ⊢
  simp only at hb hbud h1 ⊢
  generalize bringUpLoop env fuel
    { cycle := 0, clockCalls := 1, wakeupTime := env.clock 0, image := domain1_pd,
      t_prev := env.t_prev } = B at hb hbud h1 ⊢
  split
  · exact ⟨hb, List.Chain.nil⟩
  · rename_i k hk
    refine ⟨hb, ?_⟩
    rw [hk] at h1
    simp only at h1
    have hcalls := hbud.2.2 (by rw [hk]; rfl)
    have hlen : (wakeTimes B.events).length = B.state.clockCalls := by omega
    rw [hlen] at h1
    have hfl := hbud.1
    have hcl := controlLoop_chain env B.fuelLeft
      { B.state with clockCalls := B.state.clockCalls + 1,
                     wakeupTime := env.clock B.state.clockCalls }
      h1.1 h1.2.1 (by have h3 := h1.2.2; simp only; omega)
    simp only [wakeTimes, hlen]
    exact hcl

theorem wakeTimes_startup (env : Env) : wakeTimes (startup env) = [] := by
  unfold startup
  split <;> rfl

theorem wakeTimes_requestMaster (env : Env) : wakeTimes (requestMaster env) = [] := by
  unfold requestMaster
  simp only [wakeTimes_append, wakeTimes_initDrive]
  split <;> rfl

theorem wakeTimes_configure (env : Env) : wakeTimes (configure env).1 = [] := by
  unfold configure
  simp only
  split_ifs <;> (try split) <;>
    (simp only [wakeTimes_append, wakeTimes_startup, wakeTimes_requestMaster]; rfl)

theorem main_config_wake (env : Env) (fuel : Nat) :
    wakeTimes (main env fuel).config = [] := by
  have h := wakeTimes_configure env
  unfold main
  split
  · rename_i c hc
    rw [hc] at h
    exact h
  · rename_i c img hc
    rw [hc] at h
    simp only at h
    rw [(cyclicTask_config _ _ _ _).1, wakeTimes_append, h]
    rfl

/-- C1, as stated, fails at the change of phase: with both drives operational in the first
cycle and a clock that reads 0 ns before the bring-up loop and 1,030,000 ns after it (30 us
after the wake-up at 1,000,000 ns), the two wake-up times of the run are 1,000,000 ns and
2,030,000 ns, which are not one period apart. -/
theorem wake_period_counterexample :
    wakeTimes (main (exampleEnv 0 (fun n => ⟨0, 1030000 * n⟩)) 2).events
      = [⟨0, 1000000⟩, ⟨0, 2030000⟩] ∧
    ¬ List.Chain' periodStep
      (wakeTimes (main (exampleEnv 0 (fun n => ⟨0, 1030000 * n⟩)) 2).events) := by
  have h : wakeTimes (main (exampleEnv 0 (fun n => ⟨0, 1030000 * n⟩)) 2).events
      = [⟨0, 1000000⟩, ⟨0, 2030000⟩] := by decide
  refine ⟨h, ?_⟩
  rw [h, List.chain'_pair]
  decide

/-- C1, amended: the wake-up times of a run are those of the bring-up loop followed by
those of the control loop. Within each loop consecutive wake-up times are exactly
`PERIOD_NS` apart, whatever the clock reads during the cycle bodies. The first wake-up
time of the bring-up loop is one period after the clock reading taken before it, and the
first wake-up time of the control loop is one period after the clock reading taken between
the loops, not one period after the last bring-up wake-up time. This holds when those two
clock readings are normalised and far enough from the ends of `time_t` for the cycles of
the run. -/
theorem wake_period_within_phase (env : Env) (fuel : Nat)
    (h0 : (env.clock 0).allows fuel)
    (h1 : (env.clock (wakeTimes (main env fuel).bringUp).length).allows fuel) :
    wakeTimes (main env fuel).events
      = wakeTimes (main env fuel).bringUp ++ wakeTimes (main env fuel).control ∧
    List.Chain periodStep (env.clock 0) (wakeTimes (main env fuel).bringUp) ∧
    List.Chain periodStep (env.clock (wakeTimes (main env fuel).bringUp).length)
      (wakeTimes (main env fuel).control) := by
  refine ⟨?_, ?_⟩
  · unfold Run.events
    rw [wakeTimes_append, wakeTimes_append, main_config_wake, List.nil_append]
  · unfold main at h1 ⊢
    split
    · exact ⟨List.Chain.nil, List.Chain.nil⟩
    · rename_i c img hc
      rw [hc] at h1
      exact cyclicTask_wake env fuel _ _ h0 h1

/-- The amended C1 on a run of five cycles, two of them in the bring-up loop, with a clock
that advances by 1.03 ms from one reading to the next. -/
theorem wake_period_within_phase_witness :
    wakeTimes (main (exampleEnv 1 (fun n => ⟨0, 1030000 * n⟩)) 5).events
      = [⟨0, 1000000⟩, ⟨0, 2000000⟩, ⟨0, 3060000⟩, ⟨0, 4060000⟩, ⟨0, 5060000⟩] ∧
    (wakeTimes (main (exampleEnv 1 (fun n => ⟨0, 1030000 * n⟩)) 5).events
      = wakeTimes (main (exampleEnv 1 (fun n => ⟨0, 1030000 * n⟩)) 5).bringUp
        ++ wakeTimes (main (exampleEnv 1 (fun n => ⟨0, 1030000 * n⟩)) 5).control ∧
    List.Chain periodStep ((exampleEnv 1 (fun n => ⟨0, 1030000 * n⟩)).clock 0)
      (wakeTimes (main (exampleEnv 1 (fun n => ⟨0, 1030000 * n⟩)) 5).bringUp) ∧
    List.Chain periodStep ((exampleEnv 1 (fun n => ⟨0, 1030000 * n⟩)).clock
        (wakeTimes (main (exampleEnv 1 (fun n => ⟨0, 1030000 * n⟩)) 5).bringUp).length)
      (wakeTimes (main (exampleEnv 1 (fun n => ⟨0, 1030000 * n⟩)) 5).control)) :=
  ⟨by decide,
   wake_period_within_phase (exampleEnv 1 (fun n => ⟨0, 1030000 * n⟩)) 5 (by decide)
     (by decide)⟩

/-! ## Configuration failures -/

/-- The configuration part of `main` ends in `return -1;` exactly when `mlockall` fails, a
slave configuration is null, a PDO mapping or the PDO entry registration is rejected,
activation fails, or the domain data pointer is null. Whether `ecrt_request_master`
returned a handle plays no part. -/
theorem configure_none_iff (env : Env) :
    (configure env).2 = none ↔
      (env.mlockall = -1 ∨ env.drive0 = false ∨ env.drive1 = false ∨ env.config_pdos0 ≠ 0 ∨
        env.config_pdos1 ≠ 0 ∨ env.reg_pdo_entry_list ≠ 0 ∨ env.activate ≠ 0 ∨
        env.domain_data = none) := by
  unfold configure
  simp only
  split_ifs with h1 h2 h3 h4 h5 h6
  · simp [h1]
  · simp only [Bool.or_eq_true, Bool.not_eq_eq_eq_not, Bool.not_true] at h2
    simp only [true_iff]
    rcases h2 with h2 | h2
    · exact Or.inr (Or.inl h2)
    · exact Or.inr (Or.inr (Or.inl h2))
  · simp [h3]
  · simp [h4]
  · simp [h5]
  · simp [h6]
  · simp only [Bool.or_eq_true, Bool.not_eq_eq_eq_not, Bool.not_true, not_or,
      Bool.not_eq_false] at h2
    cases hd : env.domain_data <;> simp [h1, h2.1, h2.2, h3, h4, h5, h6]

/-- When the configuration part ends in `return -1;`, `main` returns -1 and neither loop
runs a cycle. -/
theorem main_of_configure_none (env : Env) (fuel : Nat) (h : (configure env).2 = none) :
    (main env fuel).exit = some (-1) ∧ (main env fuel).bringUp = [] ∧
    (main env fuel).control = [] := by
  unfold main
  split
  · exact ⟨rfl, rfl, rfl⟩
  · rename_i c img hc
    rw [hc] at h
    cases h

/-- C4 at its failing input. When `ecrt_request_master` returns a null handle and every
later call on it fails, `main` reports the failure and goes on: it makes the six SDO
downloads of `initDrive` and both `ecrt_master_slave_config` calls before it returns -1 at
the slave-configuration check. When the later calls are answered as successes, `main` does
not return at all and enters the cyclic loops. -/
theorem master_request_failure_continues :
    (main masterFailEnv 3).exit = some (-1) ∧
    (main masterFailEnv 3).events =
      [Event.sched_get_priority_max, Event.printf_priority 99, Event.sched_setscheduler,
       Event.mlockall, Event.stack_prefault, Event.signal, Event.ecrt_request_master,
       Event.printf Msg.requestingMasterFailed,
       Event.ecrt_master_sdo_download 0 0x6040 0 128, Event.printf Msg.odWriteUnsuccessful,
       Event.ecrt_master_sdo_download 0 0x6040 0 0xF, Event.printf Msg.odWriteUnsuccessful,
       Event.ecrt_master_sdo_download 0 0x6060 0 0x8, Event.printf Msg.odWriteUnsuccessful,
       Event.ecrt_master_sdo_download 1 0x6040 0 128, Event.printf Msg.odWriteUnsuccessful,
       Event.ecrt_master_sdo_download 1 0x6040 0 0xF, Event.printf Msg.odWriteUnsuccessful,
       Event.ecrt_master_sdo_download 1 0x6060 0 0x8, Event.printf Msg.odWriteUnsuccessful,
       Event.ecrt_master_slave_config 0, Event.ecrt_master_slave_config 1,
       Event.printf Msg.failedToGetSlaveConfiguration] ∧
    (main masterFailEnv2 1).exit = none ∧
    Event.ecrt_master_activate ∈ (main masterFailEnv2 1).events ∧
    Event.ecrt_master_receive ∈ (main masterFailEnv2 1).events := by
  decide

end L7N
